import Mathlib

/-!
A shallow embedding of the `gonexmo` Nexmo API client (Go) in Lean 4, together
with theorems about its message validation, form serialization, JSON response
decoding, and phone-number management operations.

Modelling conventions:
* Go strings and `[]byte` values are modelled as Lean `String`s (a Go string is
  a byte sequence; no verified property depends on non-UTF-8 byte contents).
  Go `len(s)` on a string counts bytes, which is `String.utf8ByteSize`;
  `len(s) <= 0` is the same as `s = ""`.
* Go `int`/`int64` are modelled as `Int` (no arithmetic near overflow occurs).
* An HTTP round trip is modelled as an explicit input: either a transport
  error (`Except.error`) or the observable part of the response the code
  reads (status code for buy/cancel, decoded JSON body for send/search).
* A Go function that can panic at runtime (nil pointer dereference) has its
  result wrapped in `GoOutcome`, distinguishing a normal return from a panic.
* Whether a network call was issued is part of each operation's result:
  `none`/`false` in the first component means the operation returned before
  contacting the network.
-/

namespace Nexmo

/-- Modelled from the spec: the client configuration holder (API key, API
secret, OAuth flag, verbose-logging flag) is defined in a repository file not
included under `src/` (spec section 2 and section 6). Only the key, secret and
OAuth flag are read by the operations verified here. -/
structure Client where
  apiKey : String := ""
  apiSecret : String := ""
  useOauth : Bool := false
  VerboseLogging : Bool := false
deriving DecidableEq

/-- Modelled from the spec: `apiRoot` is the provider API base URL, a
package-level constant defined in a repository file not included under `src/`
(spec section 6 "API root base URL"). Its exact value does not affect any
verified property; every theorem treats it as an opaque prefix. -/
def apiRoot : String := "https://rest.nexmo.com"

/-- SMS message classes (`sms.go`): `Flash`, `Standard`, `SIMData`, `Forward`,
with `Flash` the Go zero value. -/
inductive MessageClass where
  | Flash
  | Standard
  | SIMData
  | Forward
deriving DecidableEq

/-- `messageClassMap` / `MessageClass.String()` from `sms.go`. -/
def messageClassString : MessageClass → String
  | .Flash => "flash"
  | .Standard => "standard"
  | .SIMData => "SIM data"
  | .Forward => "forward"

/-- SMS message type constants from `sms.go`. -/
def Text : String := "text"

def Binary : String := "binary"

def WAPPush : String := "wappush"

def Unicode : String := "unicode"

def VCal : String := "vcal"

def VCard : String := "vcard"

/-- `SMSMessage` from `sms.go`. `Body` and `UDH` are Go `[]byte`, modelled as
`String` (see module conventions); `len(b) > 0` becomes `b ≠ ""`. Defaults are
the Go zero values. -/
structure SMSMessage where
  apiKey : String := ""
  apiSecret : String := ""
  From : String := ""
  To : String := ""
  Type_ : String := ""
  Text : String := ""
  StatusReportRequired : Int := 0
  ClientReference : String := ""
  NetworkCode : String := ""
  VCard : String := ""
  VCal : String := ""
  TTL : Int := 0
  Class : MessageClass := .Flash
  Body : String := ""
  UDH : String := ""
  Title : String := ""
  URL : String := ""
  Validity : Int := 0
deriving DecidableEq

/-- `SMSMessage.ToValues` from `sms.go`: the ordered list of form key/value
pairs produced by the successive `vals.Add` calls. `from`, `to` and `type` are
always added; each optional field is added exactly when its guard in the
source holds. The source line `// TODO support message-class` means `Class`
is never serialized. `strconv.Itoa` is `toString` on `Int`. -/
def toValues (msg : SMSMessage) : List (String × String) :=
  [("from", msg.From), ("to", msg.To), ("type", msg.Type_)]
    ++ (if msg.Text ≠ "" then [("text", msg.Text)] else [])
    ++ (if msg.StatusReportRequired ≠ 0 then
          [("status-report-req", toString msg.StatusReportRequired)] else [])
    ++ (if msg.ClientReference ≠ "" then [("client-ref", msg.ClientReference)] else [])
    ++ (if msg.NetworkCode ≠ "" then [("network-code", msg.NetworkCode)] else [])
    ++ (if msg.VCard ≠ "" then [("vcard", msg.VCard)] else [])
    ++ (if msg.VCal ≠ "" then [("vcal", msg.VCal)] else [])
    ++ (if msg.TTL ≠ 0 then [("ttl", toString msg.TTL)] else [])
    ++ (if msg.Body ≠ "" then [("body", msg.Body)] else [])
    ++ (if msg.UDH ≠ "" then [("udh", msg.UDH)] else [])

/-- Whether a form-value list carries an entry under `key`. -/
def hasKey (vals : List (String × String)) (key : String) : Bool :=
  vals.any fun p => p.1 == key

/-- The validation prefix of `SMS.Send` (`sms.go` lines 208-237): the checks
performed before any network activity, in source order. `some e` is the error
message of the `errors.New` the source returns; `none` means validation
passed. The `switch msg.Type` has no `default` branch, so any type outside
the four listed cases passes without further checks. -/
def sendValidate (msg : SMSMessage) : Option String :=
  if msg.From = "" then some "Invalid From field specified"
  else if msg.To = "" then some "Invalid To field specified"
  else if 40 < msg.ClientReference.utf8ByteSize then some "Client reference too long"
  else if msg.Type_ = Text then none
  else if msg.Type_ = Unicode then
    if msg.Text = "" then some "Invalid message text" else none
  else if msg.Type_ = Binary then
    if msg.UDH = "" ∨ msg.Body = "" then some "Invalid binary message" else none
  else if msg.Type_ = WAPPush then
    if msg.URL = "" ∨ msg.Title = "" then some "Invalid WAP Push parameters" else none
  else none

/-- A JSON value, as produced by decoding a well-formed response body.
Numbers are restricted to integers: every numeric field the source decodes
from a native JSON number is an integer count (`AvailableNumber.Cost`, the
lone `float64`, arrives as a quoted string and is kept as that string). -/
inductive Json where
  | null
  | bool (b : Bool)
  | num (n : Int)
  | str (s : String)
  | arr (elems : List Json)
  | obj (fields : List (String × Json))

/-- Lower-case an ASCII string character by character (the computable spine
of `strings.ToLower` as `encoding/json` uses it for field-name matching). -/
def lowerStr (s : String) : String :=
  String.mk (s.data.map Char.toLower)

/-- Parse a base-10 digit. -/
def digitVal (c : Char) : Option Nat :=
  if 48 ≤ c.toNat ∧ c.toNat ≤ 57 then some (c.toNat - 48) else none

/-- Accumulate decimal digits; any non-digit rejects the string. -/
def parseDigits : List Char → Nat → Option Nat
  | [], acc => some acc
  | c :: cs, acc =>
    match digitVal c with
    | some d => parseDigits cs (acc * 10 + d)
    | none => none

/-- Parse the contents of a `,string`-quoted integer as `encoding/json` and
`strconv` accept it for an `int` field: an optional leading minus sign
followed by at least one decimal digit. -/
def parseGoInt (s : String) : Option Int :=
  match s.data with
  | [] => none
  | c :: cs =>
    if c = Char.ofNat 45 then
      match cs with
      | [] => none
      | _ => (parseDigits cs 0).map fun n => -(n : Int)
    else (parseDigits (c :: cs) 0).map fun n => (n : Int)

/-- Field lookup following `encoding/json`: object keys are processed in
order, each assigning to the field whose name (or tag) matches exactly or
case-insensitively, so a later duplicate key overwrites an earlier one. -/
def jsonLookup (fields : List (String × Json)) (key : String) : Option Json :=
  fields.foldl
    (fun acc p => if p.1 = key ∨ lowerStr p.1 = lowerStr key then some p.2 else acc)
    none

/-- Decode a plain string-typed struct field: a missing key or JSON `null`
leaves the Go zero value `""`; a JSON string is taken verbatim; any other
JSON value is an unmarshalling type error. -/
def decodeStringField (fields : List (String × Json)) (key : String) :
    Except String String :=
  match jsonLookup fields key with
  | none => .ok ""
  | some .null => .ok ""
  | some (.str s) => .ok s
  | some _ => .error ("json: cannot unmarshal value into string field " ++ key)

/-- Decode an integer struct field carrying the `,string` tag (`sms.go`:
`MessageResponse.MessageCount`, `MessageReport.Status`): the JSON value must
be a quoted string whose contents parse as an integer; a native JSON number
(or any other non-string value) is rejected, mirroring
`json: invalid use of ,string struct tag`. A missing key or `null` leaves the
Go zero value `0`. -/
def decodeStringIntField (fields : List (String × Json)) (key : String) :
    Except String Int :=
  match jsonLookup fields key with
  | none => .ok 0
  | some .null => .ok 0
  | some (.str s) =>
    match parseGoInt s with
    | some n => .ok n
    | none => .error ("json: invalid number literal in string field " ++ key)
  | some _ => .error ("json: invalid use of string struct tag for field " ++ key)

/-- `MessageReport` from `sms.go`: the status report for a single SMS.
`Status` has Go type `ResponseCode` (an `int`), modelled as `Int`. -/
structure MessageReport where
  Status : Int := 0
  MessageID : String := ""
  To : String := ""
  ClientReference : String := ""
  RemainingBalance : String := ""
  MessagePrice : String := ""
  Network : String := ""
  ErrorText : String := ""
deriving DecidableEq

/-- `MessageResponse` from `sms.go`: aggregate count (`,string`-tagged) plus
the ordered list of per-segment reports. -/
structure MessageResponse where
  MessageCount : Int := 0
  Messages : List MessageReport := []
deriving DecidableEq

/-- Unmarshal one element of the `messages` array into a `MessageReport`,
per the json tags on `MessageReport`: `status` is a `,string` integer, all
other fields are plain strings. -/
def decodeMessageReport (j : Json) : Except String MessageReport :=
  match j with
  | .obj fields => do
    let status ← decodeStringIntField fields "status"
    let mid ← decodeStringField fields "message-id"
    let toField ← decodeStringField fields "to"
    let cref ← decodeStringField fields "client-ref"
    let bal ← decodeStringField fields "remaining-balance"
    let price ← decodeStringField fields "message-price"
    let net ← decodeStringField fields "network"
    let etext ← decodeStringField fields "error-text"
    .ok { Status := status, MessageID := mid, To := toField, ClientReference := cref,
          RemainingBalance := bal, MessagePrice := price, Network := net,
          ErrorText := etext }
  | .null => .ok {}
  | _ => .error "json: cannot unmarshal value into MessageReport"

/-- Unmarshal a response body into a `MessageResponse`, per the json tags:
`message-count` is a `,string` integer, `messages` an array of reports
decoded in order. Missing keys leave the Go zero values (`0`, `nil`). -/
def decodeMessageResponse (j : Json) : Except String MessageResponse :=
  match j with
  | .obj fields => do
    let mc ← decodeStringIntField fields "message-count"
    let msgs ←
      match jsonLookup fields "messages" with
      | none => Except.ok []
      | some .null => Except.ok []
      | some (.arr elems) => elems.mapM decodeMessageReport
      | some _ => Except.error "json: cannot unmarshal value into messages"
    .ok { MessageCount := mc, Messages := msgs }
  | _ => .error "json: cannot unmarshal value into MessageResponse"

/-- `SMS.Send` from `sms.go`. The first component is the network activity:
`none` means the function returned before issuing the request (validation
failure); `some form` means a POST carrying exactly `form` (the `ToValues`
pairs followed by `api_key` and `api_secret`) was issued. `net` is the
round-trip outcome: a transport error (which the source checks before its
`defer`, so it is returned, not panicked on) or the parsed response body.
The source unmarshals into a `*MessageResponse`, so a JSON `null` body
yields a `nil` response with no error, modelled as `Except.ok none`.
`sendNetworkPhase` is the post-validation tail of `Send`: propagate a
transport error, otherwise unmarshal the body. -/
def sendNetworkPhase (net : Except String Json) :
    Except String (Option MessageResponse) :=
  match net with
  | .error e => .error e
  | .ok .null => .ok none
  | .ok body =>
    match decodeMessageResponse body with
    | .ok r => .ok (some r)
    | .error e => .error e

/-- `SMS.Send` (`sms.go`): validate, stamp credentials when not using OAuth,
serialize the form, then run the network phase. -/
def send (cl : Client) (msg : SMSMessage) (net : Except String Json) :
    Option (List (String × String)) × Except String (Option MessageResponse) :=
  match sendValidate msg with
  | some e => (none, .error e)
  | none =>
    let m := if cl.useOauth then msg
             else { msg with apiKey := cl.apiKey, apiSecret := cl.apiSecret }
    let form := toValues m ++ [("api_key", m.apiKey), ("api_secret", m.apiSecret)]
    (some form, sendNetworkPhase net)

/-- The outcome of running a Go function that may panic at runtime: either a
normal return of a value, or a runtime panic carrying the runtime error
message. -/
inductive GoOutcome (α : Type) where
  | panicked (msg : String) : GoOutcome α
  | returned (val : α) : GoOutcome α
deriving DecidableEq

/-- The Go runtime error message raised by dereferencing a nil pointer. -/
def nilDerefPanic : String :=
  "runtime error: invalid memory address or nil pointer dereference"

/-- An upper-case hexadecimal digit, for percent-encoding. -/
def upperHexDigit (n : Nat) : Char :=
  if n < 10 then Char.ofNat (48 + n) else Char.ofNat (55 + n)

/-- Escape one byte the way `net/url.QueryEscape` does: space becomes `+`,
ASCII letters, digits and `-`, `_`, `.`, `~` pass through, every other byte
becomes `%XX` with upper-case hex. -/
def escapeByte (b : Nat) : String :=
  if b = 32 then "+"
  else if (65 ≤ b ∧ b ≤ 90) ∨ (97 ≤ b ∧ b ≤ 122) ∨ (48 ≤ b ∧ b ≤ 57)
          ∨ b = 45 ∨ b = 95 ∨ b = 46 ∨ b = 126 then
    String.singleton (Char.ofNat b)
  else
    "%" ++ String.singleton (upperHexDigit (b / 16))
        ++ String.singleton (upperHexDigit (b % 16))

/-- `net/url.QueryEscape`: escape each UTF-8 byte of the string. -/
def queryEscape (s : String) : String :=
  String.join (s.toUTF8.toList.map fun b => escapeByte b.toNat)

/-- `NumberSearchOptions` from the number-management file: optional pattern
filters for the search operation. -/
structure NumberSearchOptions where
  Pattern : String := ""
  SearchPattern : String := ""
deriving DecidableEq

/-- `AvailableNumber` from the number-management file. Go declares `Cost` as
`float64` with a `,string` json tag; the decoded value here keeps the quoted
decimal string as transmitted (no verified property concerns its numeric
value, and floating point is outside the embedding). -/
structure AvailableNumber where
  Country : String := ""
  MSISDN : String := ""
  Type_ : String := ""
  Features : List String := []
  Cost : String := ""
deriving DecidableEq

/-- `NumberSearchResponse` from the number-management file: count plus the
numbers available for purchase. `Count` is Go `int64`. -/
structure NumberSearchResponse where
  Count : Int := 0
  Numbers : List AvailableNumber := []
deriving DecidableEq

/-- Decode an `int64` struct field from a native JSON number (the `count`
field has no `,string` tag). Missing key or `null` leaves the zero value. -/
def decodeIntField (fields : List (String × Json)) (key : String) :
    Except String Int :=
  match jsonLookup fields key with
  | none => .ok 0
  | some .null => .ok 0
  | some (.num n) => .ok n
  | some _ => .error ("json: cannot unmarshal value into int field " ++ key)

/-- Decode the `,string`-tagged `Cost` field: the JSON value must be a quoted
string (Go further parses it as a decimal `float64`; the string itself is
retained here). -/
def decodeCostField (fields : List (String × Json)) (key : String) :
    Except String String :=
  match jsonLookup fields key with
  | none => .ok ""
  | some .null => .ok ""
  | some (.str s) => .ok s
  | some _ => .error ("json: invalid use of string struct tag for field " ++ key)

/-- Decode a `[]string` struct field (`features`) from a JSON array of
strings; missing key or `null` leaves the nil slice. -/
def decodeStringListField (fields : List (String × Json)) (key : String) :
    Except String (List String) :=
  match jsonLookup fields key with
  | none => .ok []
  | some .null => .ok []
  | some (.arr elems) =>
    elems.mapM fun e =>
      match e with
      | .str s => Except.ok s
      | _ => Except.error ("json: cannot unmarshal value into string element of " ++ key)
  | some _ => .error ("json: cannot unmarshal value into list field " ++ key)

/-- Unmarshal one element of the `numbers` array into an `AvailableNumber`.
The struct has no name tags (except `,string` on `Cost`), so the lower-case
wire keys `country`, `msisdn`, `type`, `features`, `cost` match the field
names case-insensitively. -/
def decodeAvailableNumber (j : Json) : Except String AvailableNumber :=
  match j with
  | .obj fields => do
    let country ← decodeStringField fields "Country"
    let msisdn ← decodeStringField fields "MSISDN"
    let ty ← decodeStringField fields "Type"
    let features ← decodeStringListField fields "Features"
    let cost ← decodeCostField fields "Cost"
    .ok { Country := country, MSISDN := msisdn, Type_ := ty,
          Features := features, Cost := cost }
  | .null => .ok {}
  | _ => .error "json: cannot unmarshal value into AvailableNumber"

/-- Unmarshal a search response body into a `NumberSearchResponse` (fields
`Count`, `Numbers`, matched case-insensitively against `count`, `numbers`). -/
def decodeNumberSearchResponse (j : Json) : Except String NumberSearchResponse :=
  match j with
  | .obj fields => do
    let count ← decodeIntField fields "Count"
    let nums ←
      match jsonLookup fields "Numbers" with
      | none => Except.ok []
      | some .null => Except.ok []
      | some (.arr elems) => elems.mapM decodeAvailableNumber
      | some _ => Except.error "json: cannot unmarshal value into Numbers"
    .ok { Count := count, Numbers := nums }
  | _ => .error "json: cannot unmarshal value into NumberSearchResponse"

/-- The request URL built by `SearchAvailableWithOptions`: the path embeds
key, secret and country; the outer guard requires BOTH `Pattern` and
`SearchPattern` to be non-empty before appending `?pattern=`, and the inner
(always-true under the outer guard) check appends `&search_pattern=`. -/
def searchUrl (cl : Client) (countryCode : String) (opts : NumberSearchOptions) :
    String :=
  let requestUrl := apiRoot ++ "/number/search/" ++ cl.apiKey ++ "/"
      ++ cl.apiSecret ++ "/" ++ countryCode
  if opts.Pattern ≠ "" ∧ opts.SearchPattern ≠ "" then
    let withPattern := requestUrl ++ "?pattern=" ++ queryEscape opts.Pattern
    if opts.SearchPattern ≠ "" then
      withPattern ++ "&search_pattern=" ++ queryEscape opts.SearchPattern
    else withPattern
  else requestUrl

/-- `Numbers.SearchAvailableWithOptions`. First component: the request URL of
the GET actually issued (`none` if validation failed before any network
activity). `http` is the round trip: transport error or decoded JSON body.
The source registers `defer resp.Body.Close()` BEFORE checking `err`; when
`client.Do` fails with a transport error `resp` is nil, so evaluating
`resp.Body` panics with a nil pointer dereference instead of reaching the
`return`. On success the body is unmarshalled into the response (the
partially-filled struct Go leaves behind on a mid-decode error is not
tracked; the decode error itself is). -/
def searchAvailableWithOptions (cl : Client) (countryCode : String)
    (opts : NumberSearchOptions) (http : Except String Json) :
    Option String × GoOutcome (NumberSearchResponse × Option String) :=
  if countryCode = "" then
    (none, .returned ({}, some "Invalid country code field specified"))
  else
    let requestUrl := searchUrl cl countryCode opts
    match http with
    | .error _ => (some requestUrl, .panicked nilDerefPanic)
    | .ok body =>
      (some requestUrl,
        .returned (match decodeNumberSearchResponse body with
          | .ok r => (r, none)
          | .error e => ({}, some e)))

/-- `Numbers.SearchAvailable`: search with empty options. -/
def searchAvailable (cl : Client) (countryCode : String)
    (http : Except String Json) :
    Option String × GoOutcome (NumberSearchResponse × Option String) :=
  searchAvailableWithOptions cl countryCode {} http

/-- `Numbers.BuyPhoneNumber`. First component: the URL of the POST actually
issued (`none` if validation failed before any network activity). `http` is
the round trip: transport error, or the HTTP status code of the response
(the response body is never read). As in search, `defer resp.Body.Close()`
precedes the `err` check, so a transport error (nil `resp`) panics with a
nil pointer dereference rather than returning the error. On a response, the
result is decided purely by the status code switch. -/
def buyPhoneNumber (cl : Client) (countryCode number : String)
    (http : Except String Nat) : Option String × GoOutcome (Bool × Option String) :=
  if countryCode = "" then
    (none, .returned (false, some "Invalid country code field specified"))
  else if number = "" then
    (none, .returned (false, some "Invalid number field specified"))
  else
    let requestUrl := apiRoot ++ "/number/buy/" ++ cl.apiKey ++ "/"
        ++ cl.apiSecret ++ "/" ++ countryCode ++ "/" ++ number
    match http with
    | .error _ => (some requestUrl, .panicked nilDerefPanic)
    | .ok status =>
      (some requestUrl,
        .returned (if status = 200 then (true, none)
          else if status = 401 then (false, some "Wrong credentials")
          else if status = 420 then (false, some "Bad parameters")
          else (false, some "Other error")))

/-- `Numbers.CancelPhoneNumber`: same validation, same premature `defer`,
and the same status-code switch as `buyPhoneNumber`, against the
`/number/cancel/` endpoint. -/
def cancelPhoneNumber (cl : Client) (countryCode number : String)
    (http : Except String Nat) : Option String × GoOutcome (Bool × Option String) :=
  if countryCode = "" then
    (none, .returned (false, some "Invalid country code field specified"))
  else if number = "" then
    (none, .returned (false, some "Invalid number field specified"))
  else
    let requestUrl := apiRoot ++ "/number/cancel/" ++ cl.apiKey ++ "/"
        ++ cl.apiSecret ++ "/" ++ countryCode ++ "/" ++ number
    match http with
    | .error _ => (some requestUrl, .panicked nilDerefPanic)
    | .ok status =>
      (some requestUrl,
        .returned (if status = 200 then (true, none)
          else if status = 401 then (false, some "Wrong credentials")
          else if status = 420 then (false, some "Bad parameters")
          else (false, some "Other error")))

/-- Decidable equality for `Except` results, used to evaluate the decoders
on concrete response bodies. -/
def exceptDecEq {ε α : Type} [DecidableEq ε] [DecidableEq α] :
    (a b : Except ε α) → Decidable (a = b)
  | .error x, .error y =>
    if h : x = y then .isTrue (by rw [h])
    else .isFalse (fun hc => h (by injection hc))
  | .error _, .ok _ => .isFalse (fun hc => Except.noConfusion hc)
  | .ok _, .error _ => .isFalse (fun hc => Except.noConfusion hc)
  | .ok x, .ok y =>
    if h : x = y then .isTrue (by rw [h])
    else .isFalse (fun hc => h (by injection hc))

instance {ε α : Type} [DecidableEq ε] [DecidableEq α] :
    DecidableEq (Except ε α) := exceptDecEq

/-- The part of the buy/cancel request URL after the endpoint path: key,
secret, country and number, separated by slashes. -/
def urlTail (cl : Client) (countryCode number : String) : String :=
  cl.apiKey ++ "/" ++ cl.apiSecret ++ "/" ++ countryCode ++ "/" ++ number

theorem string_append_assoc (a b c : String) : a ++ b ++ c = a ++ (b ++ c) := by
  cases a with | mk la =>
  cases b with | mk lb =>
  cases c with | mk lc =>
  show String.mk (la ++ lb ++ lc) = String.mk (la ++ (lb ++ lc))
  rw [List.append_assoc]

theorem hasKey_append (a b : List (String × String)) (k : String) :
    hasKey (a ++ b) k = (hasKey a k || hasKey b k) := List.any_append

theorem hasKey_ite (c : Prop) [Decidable c] (x y : List (String × String))
    (k : String) :
    hasKey (if c then x else y) k = if c then hasKey x k else hasKey y k := by
  split <;> rfl

theorem hasKey_cons (p : String × String) (l : List (String × String))
    (k : String) : hasKey (p :: l) k = (p.1 == k || hasKey l k) := rfl

theorem hasKey_nil (k : String) : hasKey [] k = false := rfl

/-- Claim C1 (code bug): the claim says a transport error in
`SearchAvailableWithOptions`, `BuyPhoneNumber` or `CancelPhoneNumber` is
returned unchanged without a panic, but all three register
`defer resp.Body.Close()` before checking `err`; on a transport error
`client.Do` yields a nil `resp`, so the deferred `resp.Body` dereference
panics at runtime instead of returning the error. Evaluated here at a
concrete failing input: valid parameters, transport error
"connection refused". -/
theorem transport_error_panics_not_returned :
    (Nexmo.buyPhoneNumber { apiKey := "key", apiSecret := "secret" } "US"
        "12015550123" (.error "connection refused")).2 =
      .panicked Nexmo.nilDerefPanic ∧
    (Nexmo.cancelPhoneNumber { apiKey := "key", apiSecret := "secret" } "US"
        "12015550123" (.error "connection refused")).2 =
      .panicked Nexmo.nilDerefPanic ∧
    (Nexmo.searchAvailableWithOptions { apiKey := "key", apiSecret := "secret" }
        "US" {} (.error "connection refused")).2 =
      .panicked Nexmo.nilDerefPanic := by
  refine ⟨rfl, rfl, rfl⟩

/-- Claim C4: `BuyPhoneNumber` with an empty country code or empty number
returns the corresponding validation error without a network call (first
component `none`); for non-empty inputs and a completed HTTP round trip, the
result is a pure function of the status code: 200 maps to success with no
error, 401 to "Wrong credentials", 420 to "Bad parameters", anything else to
"Other error". The response body is never consulted: the embedded operation
receives only the status code. -/
theorem buy_validation_and_status_mapping (cl : Nexmo.Client)
    (country number : String) (st : Nat) :
    (country = "" → Nexmo.buyPhoneNumber cl country number (.ok st) =
      (none, .returned (false, some "Invalid country code field specified"))) ∧
    (country ≠ "" → number = "" →
      Nexmo.buyPhoneNumber cl country number (.ok st) =
      (none, .returned (false, some "Invalid number field specified"))) ∧
    (country ≠ "" → number ≠ "" →
      (Nexmo.buyPhoneNumber cl country number (.ok st)).1.isSome = true ∧
      (Nexmo.buyPhoneNumber cl country number (.ok st)).2 =
        .returned (if st = 200 then (true, none)
          else if st = 401 then (false, some "Wrong credentials")
          else if st = 420 then (false, some "Bad parameters")
          else (false, some "Other error"))) := by
  refine ⟨fun hc => ?_, fun hc hn => ?_, fun hc hn => ?_⟩
  · simp [Nexmo.buyPhoneNumber, hc]
  · simp [Nexmo.buyPhoneNumber, hc, hn]
  · simp [Nexmo.buyPhoneNumber, hc, hn]

/-- Witness for C4: buying with valid parameters against a 420 response
yields the "Bad parameters" error after an issued network call. -/
theorem buy_validation_and_status_mapping_witness :
    (Nexmo.buyPhoneNumber { apiKey := "key", apiSecret := "secret" } "US"
        "12015550123" (.ok 420)).1.isSome = true ∧
    (Nexmo.buyPhoneNumber { apiKey := "key", apiSecret := "secret" } "US"
        "12015550123" (.ok 420)).2 =
      .returned (false, some "Bad parameters") := by
  have h := (buy_validation_and_status_mapping
    { apiKey := "key", apiSecret := "secret" } "US" "12015550123" 420).2.2
    (by decide) (by decide)
  exact ⟨h.1, by simpa using h.2⟩

/-- Claim C5: `CancelPhoneNumber` behaves exactly like `BuyPhoneNumber` on
every input and every HTTP outcome — same validation, same status-code
mapping, same no-call conditions — and the two request URLs share the same
tail after their respective `/number/cancel/` and `/number/buy/` endpoint
paths. -/
theorem cancel_matches_buy (cl : Nexmo.Client) (country number : String)
    (http : Except String Nat) :
    (Nexmo.cancelPhoneNumber cl country number http).2 =
      (Nexmo.buyPhoneNumber cl country number http).2 ∧
    ((Nexmo.cancelPhoneNumber cl country number http).1 = none ↔
      (Nexmo.buyPhoneNumber cl country number http).1 = none) ∧
    (∀ u, (Nexmo.buyPhoneNumber cl country number http).1 = some u →
      u = Nexmo.apiRoot ++ "/number/buy/" ++ Nexmo.urlTail cl country number) ∧
    (∀ u, (Nexmo.cancelPhoneNumber cl country number http).1 = some u →
      u = Nexmo.apiRoot ++ "/number/cancel/" ++ Nexmo.urlTail cl country number) := by
  by_cases hc : country = "" <;> by_cases hn : number = "" <;>
    cases http <;>
    simp [Nexmo.buyPhoneNumber, Nexmo.cancelPhoneNumber, Nexmo.urlTail, hc, hn,
      Nexmo.string_append_assoc]

/-- Witness for C5: at a concrete input the two operations produce the same
returned value, and the buy URL is the buy endpoint followed by the shared
tail. -/
theorem cancel_matches_buy_witness :
    (Nexmo.cancelPhoneNumber { apiKey := "key", apiSecret := "secret" } "US"
        "12015550123" (.ok 200)).2 =
      (Nexmo.buyPhoneNumber { apiKey := "key", apiSecret := "secret" } "US"
        "12015550123" (.ok 200)).2 ∧
    "https://rest.nexmo.com/number/buy/key/secret/US/12015550123" =
      Nexmo.apiRoot ++ "/number/buy/" ++
        Nexmo.urlTail { apiKey := "key", apiSecret := "secret" } "US" "12015550123" := by
  have h := cancel_matches_buy { apiKey := "key", apiSecret := "secret" } "US"
    "12015550123" (.ok 200)
  exact ⟨h.1, h.2.2.1 _ rfl⟩

/-- Claim C6: for a non-empty country, `SearchAvailableWithOptions` issues its
GET to `searchUrl`, and that URL carries the `pattern` and `search_pattern`
query parameters exactly when BOTH options are non-empty; when either one is
empty (in particular when only one of the two is supplied) the URL is the
bare path with neither parameter. -/
theorem search_pattern_both_or_neither (cl : Nexmo.Client) (country : String)
    (opts : Nexmo.NumberSearchOptions) (http : Except String Nexmo.Json) :
    (country ≠ "" →
      (Nexmo.searchAvailableWithOptions cl country opts http).1 =
        some (Nexmo.searchUrl cl country opts)) ∧
    (opts.Pattern ≠ "" → opts.SearchPattern ≠ "" →
      Nexmo.searchUrl cl country opts =
        Nexmo.apiRoot ++ "/number/search/" ++ cl.apiKey ++ "/" ++ cl.apiSecret
          ++ "/" ++ country ++ "?pattern=" ++ Nexmo.queryEscape opts.Pattern
          ++ "&search_pattern=" ++ Nexmo.queryEscape opts.SearchPattern) ∧
    ((opts.Pattern = "" ∨ opts.SearchPattern = "") →
      Nexmo.searchUrl cl country opts =
        Nexmo.apiRoot ++ "/number/search/" ++ cl.apiKey ++ "/" ++ cl.apiSecret
          ++ "/" ++ country) := by
  refine ⟨fun hc => ?_, fun hp hs => ?_, fun h => ?_⟩
  · cases http <;> simp [Nexmo.searchAvailableWithOptions, hc]
  · simp [Nexmo.searchUrl, hp, hs]
  · rcases h with h | h <;> simp [Nexmo.searchUrl, h]

/-- Witness for C6: supplying only a pattern (no search-pattern) produces the
bare search URL with neither query parameter. -/
theorem search_pattern_both_or_neither_witness :
    Nexmo.searchUrl { apiKey := "key", apiSecret := "secret" } "US"
        { Pattern := "1985" } =
      "https://rest.nexmo.com/number/search/key/secret/US" :=
  (search_pattern_both_or_neither { apiKey := "key", apiSecret := "secret" }
    "US" { Pattern := "1985" } (.ok .null)).2.2 (Or.inr rfl)

/-- Claim C2: `Send` rejects an empty sender, an empty recipient, and a
client reference longer than 40 bytes with the corresponding validation
error and no network call (first component `none`); when all three checks
pass, validation never produces any of those three errors. -/
theorem send_basic_validation (cl : Nexmo.Client) (msg : Nexmo.SMSMessage)
    (net : Except String Nexmo.Json) :
    (msg.From = "" → Nexmo.send cl msg net =
      (none, .error "Invalid From field specified")) ∧
    (msg.From ≠ "" → msg.To = "" → Nexmo.send cl msg net =
      (none, .error "Invalid To field specified")) ∧
    (msg.From ≠ "" → msg.To ≠ "" → 40 < msg.ClientReference.utf8ByteSize →
      Nexmo.send cl msg net = (none, .error "Client reference too long")) ∧
    (msg.From ≠ "" → msg.To ≠ "" → msg.ClientReference.utf8ByteSize ≤ 40 →
      Nexmo.sendValidate msg ≠ some "Invalid From field specified" ∧
      Nexmo.sendValidate msg ≠ some "Invalid To field specified" ∧
      Nexmo.sendValidate msg ≠ some "Client reference too long") := by
  refine ⟨fun h1 => ?_, fun h1 h2 => ?_, fun h1 h2 h3 => ?_, fun h1 h2 h3 => ?_⟩
  · simp [Nexmo.send, Nexmo.sendValidate, h1]
  · simp [Nexmo.send, Nexmo.sendValidate, h1, h2]
  · simp [Nexmo.send, Nexmo.sendValidate, h1, h2, h3]
  · simp only [Nexmo.sendValidate, if_neg h1, if_neg h2,
      if_neg (Nat.not_lt.mpr h3)]
    split_ifs <;> simp

/-- Witness for C2: a message with an empty sender is rejected with the
sender validation error and no request is issued. -/
theorem send_basic_validation_witness :
    Nexmo.send {} { To := "447700900000", Type_ := "text" } (.ok .null) =
      (none, .error "Invalid From field specified") :=
  (send_basic_validation {} { To := "447700900000", Type_ := "text" }
    (.ok .null)).1 rfl

/-- Claim C3: for a message passing the sender/recipient/reference checks,
the type-specific validation of `Send` holds: a unicode message with empty
text fails with "Invalid message text"; a binary message with empty payload
or empty header fails with "Invalid binary message"; a WAP-push message with
empty URL or empty title fails with "Invalid WAP Push parameters"; a
text-type message passes validation with no further requirements. -/
theorem send_type_validation (msg : Nexmo.SMSMessage) (h1 : msg.From ≠ "")
    (h2 : msg.To ≠ "") (h3 : msg.ClientReference.utf8ByteSize ≤ 40) :
    (msg.Type_ = Nexmo.Unicode → msg.Text = "" →
      Nexmo.sendValidate msg = some "Invalid message text") ∧
    (msg.Type_ = Nexmo.Binary → msg.UDH = "" ∨ msg.Body = "" →
      Nexmo.sendValidate msg = some "Invalid binary message") ∧
    (msg.Type_ = Nexmo.WAPPush → msg.URL = "" ∨ msg.Title = "" →
      Nexmo.sendValidate msg = some "Invalid WAP Push parameters") ∧
    (msg.Type_ = Nexmo.Text →
      Nexmo.sendValidate msg = none) := by
  have h3x := Nat.not_lt.mpr h3
  refine ⟨fun ht hx => ?_, fun ht hx => ?_, fun ht hx => ?_, fun ht => ?_⟩
  · simp [Nexmo.sendValidate, h1, h2, h3x, ht, hx, Nexmo.Text, Nexmo.Unicode,
      Nexmo.Binary, Nexmo.WAPPush]
  · simp [Nexmo.sendValidate, h1, h2, h3x, ht, hx, Nexmo.Text, Nexmo.Unicode,
      Nexmo.Binary, Nexmo.WAPPush]
  · simp [Nexmo.sendValidate, h1, h2, h3x, ht, hx, Nexmo.Text, Nexmo.Unicode,
      Nexmo.Binary, Nexmo.WAPPush]
  · simp [Nexmo.sendValidate, h1, h2, h3x, ht, Nexmo.Text]

/-- Witness for C3: a unicode-type message with non-empty sender and
recipient but empty text fails validation with "Invalid message text". -/
theorem send_type_validation_witness :
    Nexmo.sendValidate { From := "me", To := "4477", Type_ := Nexmo.Unicode } =
      some "Invalid message text" :=
  (send_type_validation { From := "me", To := "4477", Type_ := Nexmo.Unicode }
    (by decide) (by decide) (by decide)).1 rfl rfl

/-- Claim C10: `Send` applies no type-specific validation to any message
whose type lies outside the four switch cases (in particular `vcal` and
`vcard`): with a non-empty sender and recipient and a client reference of at
most 40 bytes, validation passes and the request is issued whatever the
other fields contain. -/
theorem send_unknown_type_skips_validation (cl : Nexmo.Client)
    (msg : Nexmo.SMSMessage) (net : Except String Nexmo.Json)
    (h1 : msg.From ≠ "") (h2 : msg.To ≠ "")
    (h3 : msg.ClientReference.utf8ByteSize ≤ 40)
    (h4 : msg.Type_ ≠ Nexmo.Text) (h5 : msg.Type_ ≠ Nexmo.Unicode)
    (h6 : msg.Type_ ≠ Nexmo.Binary) (h7 : msg.Type_ ≠ Nexmo.WAPPush) :
    Nexmo.sendValidate msg = none ∧
    (Nexmo.send cl msg net).1.isSome = true := by
  have hv : Nexmo.sendValidate msg = none := by
    simp [Nexmo.sendValidate, h1, h2, h4, h5, h6, h7, Nat.not_lt.mpr h3]
  exact ⟨hv, by simp [Nexmo.send, hv]⟩

/-- Witness for C10: a `vcal`-type message with every optional field empty
passes validation and a request is issued. -/
theorem send_unknown_type_skips_validation_witness :
    Nexmo.sendValidate { From := "me", To := "4477", Type_ := Nexmo.VCal } = none ∧
    (Nexmo.send {} { From := "me", To := "4477", Type_ := Nexmo.VCal } (.ok .null)).1.isSome = true :=
  send_unknown_type_skips_validation {} { From := "me", To := "4477", Type_ := Nexmo.VCal } (.ok .null)
    (by decide) (by decide) (by decide) (by decide) (by decide) (by decide)
    (by decide)

/-- Claim C7: `ToValues` contains each optional form key exactly when the
corresponding field is non-empty (for strings and byte slices) or non-zero
(for integers): `text`, `status-report-req`, `client-ref`, `network-code`,
`vcard`, `vcal`, `ttl`, `body`, `udh`. -/
theorem toValues_optional_fields (msg : Nexmo.SMSMessage) :
    (Nexmo.hasKey (Nexmo.toValues msg) "text" = true ↔ msg.Text ≠ "") ∧
    (Nexmo.hasKey (Nexmo.toValues msg) "status-report-req" = true ↔
      msg.StatusReportRequired ≠ 0) ∧
    (Nexmo.hasKey (Nexmo.toValues msg) "client-ref" = true ↔
      msg.ClientReference ≠ "") ∧
    (Nexmo.hasKey (Nexmo.toValues msg) "network-code" = true ↔
      msg.NetworkCode ≠ "") ∧
    (Nexmo.hasKey (Nexmo.toValues msg) "vcard" = true ↔ msg.VCard ≠ "") ∧
    (Nexmo.hasKey (Nexmo.toValues msg) "vcal" = true ↔ msg.VCal ≠ "") ∧
    (Nexmo.hasKey (Nexmo.toValues msg) "ttl" = true ↔ msg.TTL ≠ 0) ∧
    (Nexmo.hasKey (Nexmo.toValues msg) "body" = true ↔ msg.Body ≠ "") ∧
    (Nexmo.hasKey (Nexmo.toValues msg) "udh" = true ↔ msg.UDH ≠ "") := by
  refine ⟨?_, ?_, ?_, ?_, ?_, ?_, ?_, ?_, ?_⟩ <;>
    simp [Nexmo.toValues, Nexmo.hasKey_append, Nexmo.hasKey_ite,
      Nexmo.hasKey_cons, Nexmo.hasKey_nil]

/-- Claim C8: whatever the message (in particular whatever its `Class`
field), `ToValues` never emits a `message-class` key; the field is modelled
in the data type but not serialized. -/
theorem toValues_never_message_class (msg : Nexmo.SMSMessage) :
    Nexmo.hasKey (Nexmo.toValues msg) "message-class" = false := by
  simp [Nexmo.toValues, Nexmo.hasKey_append, Nexmo.hasKey_ite,
    Nexmo.hasKey_cons, Nexmo.hasKey_nil]

/-- Claim C9: decoding a Message Response body whose `message-count` is the
quoted string `"3"` and whose `messages` array holds three report objects
yields `MessageCount = 3` and the three reports in array order; and the
`,string`-tagged numeric fields really are parsed from quoted strings — the
same body with a native JSON number `3` for `message-count` (or for a
report's `status`) is rejected. -/
theorem decode_message_response_quoted_count :
    Nexmo.decodeMessageResponse (.obj [("message-count", .str "3"),
      ("messages", .arr [
        .obj [("status", .str "0"), ("message-id", .str "id-1"),
          ("to", .str "447700900001"), ("client-ref", .str "ref-1"),
          ("remaining-balance", .str "10.50"), ("message-price", .str "0.03"),
          ("network", .str "23410"), ("error-text", .str "")],
        .obj [("status", .str "0"), ("message-id", .str "id-2"),
          ("to", .str "447700900001")],
        .obj [("status", .str "1"), ("message-id", .str "id-3"),
          ("to", .str "447700900001"), ("error-text", .str "Throttled")]])]) =
      .ok { MessageCount := 3, Messages := [
        { Status := 0, MessageID := "id-1", To := "447700900001",
          ClientReference := "ref-1", RemainingBalance := "10.50",
          MessagePrice := "0.03", Network := "23410", ErrorText := "" },
        { Status := 0, MessageID := "id-2", To := "447700900001" },
        { Status := 1, MessageID := "id-3", To := "447700900001",
          ErrorText := "Throttled" }] } ∧
    Nexmo.decodeMessageResponse (.obj [("message-count", .num 3),
      ("messages", .arr [])]) =
      .error "json: invalid use of string struct tag for field message-count" ∧
    Nexmo.decodeMessageResponse (.obj [("message-count", .str "1"),
      ("messages", .arr [.obj [("status", .num 0)]])]) =
      .error "json: invalid use of string struct tag for field status" := by
  refine ⟨by decide, by decide, by decide⟩

end Nexmo
